import Mathlib

/-!
Verification of the MS Teams / Mattermost channel-bridge plugin.

The Go source is embedded shallowly: Go maps become association lists with
shadowing inserts, the plugin KV blob store becomes a string-keyed
association list, and every external capability (the MS Teams client, the
Mattermost plugin API, the persistence layer) becomes an explicit oracle
argument whose success or failure is a hypothesis of the theorems.
-/

namespace MSTeamsSync

/-- Go map lookup over an association-list representation: the most recent
insertion for a key shadows older entries. -/
def lookupFirst {α : Type} : List (String × α) → String → Option α
  | [], _ => none
  | (k', v) :: rest, k => if k = k' then some v else lookupFirst rest k

/-- Go map assignment `m[k] = v`: later entries shadow earlier ones. -/
def mapInsert {α : Type} (m : List (String × α)) (k : String) (v : α) :
    List (String × α) :=
  (k, v) :: m

/-- Go `delete(m, k)`: removes every entry stored under `k`. -/
def mapDelete {α : Type} (m : List (String × α)) (k : String) :
    List (String × α) :=
  m.filter (fun e => e.1 != k)

/-- The plugin KV store read `p.API.KVGet(k)`; `none` models a missing key. -/
def kvGet (kv : List (String × String)) (k : String) : Option String :=
  lookupFirst kv k

/-- The plugin KV store write `p.API.KVSet(k, v)`: an unconditional overwrite. -/
def kvSet (kv : List (String × String)) (k v : String) :
    List (String × String) :=
  mapInsert kv k v

/-- `ChannelLink` from the plugin source: one bridged channel pair. -/
structure ChannelLink where
  mattermostTeam : String
  mattermostChannel : String
  msteamsTeam : String
  msteamsChannel : String
deriving DecidableEq, Repr

/-- A Mattermost user as consumed by `Plugin.Send` (only `Username` is read). -/
structure User where
  username : String
deriving DecidableEq, Repr

/-- A value stored in `post.Props`; the handler's type assertion `.(bool)`
succeeds exactly on `boolVal`. -/
inductive PropValue where
  | boolVal : Bool → PropValue
  | otherVal : String → PropValue
deriving DecidableEq, Repr

/-- The fields of `model.Post` read by the bridge code. -/
structure Post where
  id : String
  rootId : String
  channelId : String
  userId : String
  message : String
  props : List (String × PropValue)
deriving DecidableEq, Repr

/-- The mapping-write block of `Plugin.Send` (guard `post.Id != "" &&
newMessageId != ""` followed by the two directional `KVSet` writes). -/
def RecordMapping (kv : List (String × String)) (localPostID remotePostID : String) :
    List (String × String) :=
  if localPostID ≠ "" ∧ remotePostID ≠ "" then
    kvSet (kvSet kv ("mattermost_teams_" ++ localPostID) remotePostID)
      ("teams_mattermost_" ++ remotePostID) localPostID
  else kv

/-- Lookup of the remote counterpart of a local post, as `Plugin.Send` does for
`post.RootId` via `KVGet("mattermost_teams_" + id)`. -/
def ResolveRemoteParent (kv : List (String × String)) (localPostID : String) :
    Option String :=
  kvGet kv ("mattermost_teams_" ++ localPostID)

/-- Lookup of the local counterpart of a remote message, via the
`"teams_mattermost_" + id` key written by `Plugin.Send`. -/
def ResolveLocalFromRemote (kv : List (String × String)) (remotePostID : String) :
    Option String :=
  kvGet kv ("teams_mattermost_" ++ remotePostID)

/-- The text built by `Plugin.Send`: `user.Username + "@mattermost: " + post.Message`. -/
def sendText (user : User) (post : Post) : String :=
  user.username ++ "@mattermost: " ++ post.message

/-- The parent id built by `Plugin.Send`: empty unless `post.RootId` is set, in
which case the KV translation of the root id (empty string when absent). -/
def sendParentID (kv : List (String × String)) (post : Post) : String :=
  if post.rootId ≠ "" then (kvGet kv ("mattermost_teams_" ++ post.rootId)).getD ""
  else ""

/-- Outcome of one `Plugin.Send` call: the returned `(newMessageId, err)` pair,
the KV store afterwards, and the `SendMessage` calls issued (team, channel,
parent id, text). -/
structure SendOutcome where
  result : Except String String
  kv : List (String × String)
  calls : List (String × String × String × String)

/-- `Plugin.Send`: builds the text and parent id, calls the remote
`SendMessage` capability, and on success records the directional ID mappings
(subject to the non-empty guard embedded in `RecordMapping`). -/
def Send (sendMessage : String → String → String → String → Except String String)
    (kv : List (String × String)) (link : ChannelLink) (user : User) (post : Post) :
    SendOutcome :=
  match sendMessage link.msteamsTeam link.msteamsChannel (sendParentID kv post)
      (sendText user post) with
  | .error e =>
      ⟨.error e, kv,
        [(link.msteamsTeam, link.msteamsChannel, sendParentID kv post, sendText user post)]⟩
  | .ok newMessageId =>
      ⟨.ok newMessageId, RecordMapping kv post.id newMessageId,
        [(link.msteamsTeam, link.msteamsChannel, sendParentID kv post, sendText user post)]⟩

/-- The anti-echo check of `Plugin.MessageHasBeenPosted`: the post carries a
`"matterbridge_" + p.userID` property whose value is a Go bool. -/
def hasEchoMarker (userID : String) (post : Post) : Bool :=
  match lookupFirst post.props ("matterbridge_" ++ userID) with
  | some (.boolVal _) => true
  | _ => false

/-- What the local-post handler decides to do: drop the event, or hand a
`(link, user, post)` triple to `Plugin.Send`. -/
inductive HandlerAction where
  | dropped
  | send (link : ChannelLink) (user : User) (post : Post)
deriving DecidableEq

/-- `Plugin.MessageHasBeenPosted`: drop bridge-authored posts, drop posts in
unlinked channels, otherwise dispatch `Plugin.Send` with the link and author. -/
def MessageHasBeenPosted (getChannelTeamId : String → String) (getUser : String → User)
    (userID : String) (channelsLinked : List (String × ChannelLink)) (post : Post) :
    HandlerAction :=
  if hasEchoMarker userID post then .dropped
  else
    match lookupFirst channelsLinked
        (getChannelTeamId post.channelId ++ ":" ++ post.channelId) with
    | none => .dropped
    | some link => .send link (getUser post.userId) post

/-- One local post processed end to end: the handler decision followed by the
`Plugin.Send` it dispatches, returning the `SendMessage` calls issued and the
KV store afterwards. -/
def handleLocalPost (getChannelTeamId : String → String) (getUser : String → User)
    (sendMessage : String → String → String → String → Except String String)
    (userID : String) (channelsLinked : List (String × ChannelLink))
    (kv : List (String × String)) (post : Post) :
    List (String × String × String × String) × List (String × String) :=
  match MessageHasBeenPosted getChannelTeamId getUser userID channelsLinked post with
  | .dropped => ([], kv)
  | .send link user p =>
      let o := Send sendMessage kv link user p
      (o.calls, o.kv)

/-- The channel types distinguished by the permission check in
`executeLinkCommand` / `executeUnlinkCommand`. -/
inductive ChannelType where
  | openChannel
  | privateChannel
  | otherChannel
deriving DecidableEq, Repr

/-- The fields of the current Mattermost channel read by the command handlers. -/
structure GoChannel where
  id : String
  teamId : String
  type : ChannelType
deriving DecidableEq, Repr

/-- A slash-command response: `cmdError` is the ephemeral error reply built by
`cmdError(...)`; `success` is the empty response of the happy path. -/
inductive CmdResp where
  | cmdError (text : String)
  | success
deriving DecidableEq, Repr

/-- The external capabilities consulted by the link / unlink command handlers.
`save` models `p.saveChannelsLinked()` (declared outside the given sources): a
full-snapshot write of the links map to the durable store, succeeding or
failing as the oracle decides. -/
structure LinkCmdEnv where
  teamEnabled : Bool
  getChannel : Option GoChannel
  permManagePublic : Bool
  permManagePrivate : Bool
  msGetChannel : Except Unit Unit
  subscribe : Except Unit String
  unsubscribe : Except Unit Unit
  save : List (String × ChannelLink) → Except Unit Unit

/-- The `canLinkChannel` computation shared by both command handlers: open
channel with manage-public permission, or private channel with manage-private
permission. -/
def canLinkChannel (env : LinkCmdEnv) (channel : GoChannel) : Bool :=
  (channel.type == .openChannel && env.permManagePublic)
    || (channel.type == .privateChannel && env.permManagePrivate)

/-- Outcome of one command: the response, the `channelsLinked` map afterwards,
and the snapshots handed to the persistence write. -/
structure CmdOutcome where
  resp : CmdResp
  channelsLinked : List (String × ChannelLink)
  saves : List (List (String × ChannelLink))
deriving DecidableEq, Repr

/-- `executeLinkCommand`: validates arguments, team, channel and permission,
rejects an existing link, checks the remote channel, inserts the link into
`channelsLinked`, subscribes, and persists the snapshot. Note that once the
map is mutated, a subscribe or persistence failure returns an error without
undoing the insertion. -/
def executeLinkCommand (env : LinkCmdEnv) (channelsLinked : List (String × ChannelLink))
    (parameters : List String) : CmdOutcome :=
  if parameters.length < 2 then
    ⟨.cmdError "Invalid link command, please pass the MS Teams team id and channel id as parameters.",
      channelsLinked, []⟩
  else if !env.teamEnabled then
    ⟨.cmdError "This team is not enabled for MS Teams sync.", channelsLinked, []⟩
  else
    match env.getChannel with
    | none => ⟨.cmdError "Unable to get the current channel information.", channelsLinked, []⟩
    | some channel =>
      if !canLinkChannel env channel then
        ⟨.cmdError "Unable to link the channel. You have to be a channel admin to link it.",
          channelsLinked, []⟩
      else if (lookupFirst channelsLinked (channel.teamId ++ ":" ++ channel.id)).isSome then
        ⟨.cmdError "A link for this channel already exists, please remove unlink the channel before you link a new one",
          channelsLinked, []⟩
      else
        match env.msGetChannel with
        | .error _ => ⟨.cmdError "MS Teams channel not found.", channelsLinked, []⟩
        | .ok _ =>
          match env.subscribe with
          | .error _ =>
              ⟨.cmdError "Unable to subscribe to channel, probably it is already link to another channel.",
                mapInsert channelsLinked (channel.teamId ++ ":" ++ channel.id)
                  ⟨channel.teamId, channel.id, parameters.getD 0 "", parameters.getD 1 ""⟩, []⟩
          | .ok _ =>
              match env.save (mapInsert channelsLinked (channel.teamId ++ ":" ++ channel.id)
                  ⟨channel.teamId, channel.id, parameters.getD 0 "", parameters.getD 1 ""⟩) with
              | .error _ =>
                  ⟨.cmdError "Unable to store the new link, please try again.",
                    mapInsert channelsLinked (channel.teamId ++ ":" ++ channel.id)
                      ⟨channel.teamId, channel.id, parameters.getD 0 "", parameters.getD 1 ""⟩,
                    [mapInsert channelsLinked (channel.teamId ++ ":" ++ channel.id)
                      ⟨channel.teamId, channel.id, parameters.getD 0 "", parameters.getD 1 ""⟩]⟩
              | .ok _ =>
                  ⟨.success,
                    mapInsert channelsLinked (channel.teamId ++ ":" ++ channel.id)
                      ⟨channel.teamId, channel.id, parameters.getD 0 "", parameters.getD 1 ""⟩,
                    [mapInsert channelsLinked (channel.teamId ++ ":" ++ channel.id)
                      ⟨channel.teamId, channel.id, parameters.getD 0 "", parameters.getD 1 ""⟩]⟩

/-- `executeUnlinkCommand`: validates channel and permission, rejects a missing
link, unsubscribes, deletes the link from `channelsLinked`, and persists the
snapshot. As in the link path, a persistence failure after the deletion
returns an error without restoring the deleted entry. -/
def executeUnlinkCommand (env : LinkCmdEnv) (channelsLinked : List (String × ChannelLink)) :
    CmdOutcome :=
  match env.getChannel with
  | none => ⟨.cmdError "Unable to get the current channel information.", channelsLinked, []⟩
  | some channel =>
    if !canLinkChannel env channel then
      ⟨.cmdError "Unable to unlink the channel, you has to be a channel admin to unlink it.",
        channelsLinked, []⟩
    else
      match lookupFirst channelsLinked (channel.teamId ++ ":" ++ channel.id) with
      | none => ⟨.cmdError "Link doesn\x27t exist.", channelsLinked, []⟩
      | some _ =>
        match env.unsubscribe with
        | .error _ =>
            ⟨.cmdError "Unable to store unsubscribe from channel, please try again.",
              channelsLinked, []⟩
        | .ok _ =>
            match env.save (mapDelete channelsLinked (channel.teamId ++ ":" ++ channel.id)) with
            | .error _ =>
                ⟨.cmdError "Unable to store the new link, please try again.",
                  mapDelete channelsLinked (channel.teamId ++ ":" ++ channel.id),
                  [mapDelete channelsLinked (channel.teamId ++ ":" ++ channel.id)]⟩
            | .ok _ =>
                ⟨.success, mapDelete channelsLinked (channel.teamId ++ ":" ++ channel.id),
                  [mapDelete channelsLinked (channel.teamId ++ ":" ++ channel.id)]⟩

/-- The external steps of `Plugin.start`, in call order: the two client
connections, the `KVGet("channelsLinked")` read, the JSON decode of the blob,
and the bulk subscription clear. -/
structure StartEnv where
  connectApp : Except Unit Unit
  connectBot : Except Unit Unit
  kvGetLinks : Except Unit String
  decodeLinks : String → Except Unit (List (String × ChannelLink))
  clearSubs : Except Unit Unit

/-- What `Plugin.start` leaves behind: `none` when bridging was not started
(no `channelsLinked` assignment), and the links whose subscriptions were
spawned. The `clearSubs` failure is only logged by the source and does not
change control flow. -/
structure StartOutcome where
  channelsLinked : Option (List (String × ChannelLink))
  subscriptionsStarted : List ChannelLink

/-- `Plugin.start`: each failing step aborts with no state installed; on
success the decoded links become the in-memory map and one subscription is
spawned per link. -/
def start (env : StartEnv) : StartOutcome :=
  match env.connectApp with
  | .error _ => ⟨none, []⟩
  | .ok _ =>
    match env.connectBot with
    | .error _ => ⟨none, []⟩
    | .ok _ =>
      match env.kvGetLinks with
      | .error _ => ⟨none, []⟩
      | .ok blob =>
        match env.decodeLinks blob with
        | .error _ => ⟨none, []⟩
        | .ok links => ⟨some links, links.map (·.2)⟩

/-- The external capabilities of `Plugin.subscribeToChannel`: the plugin base
URL and the MS Teams client calls it makes. -/
structure SubEnv where
  getURL : String
  subscribeRemote : String → String → String → Except String String
  refreshPeriodically : String → Except String Unit

/-- `Plugin.subscribeToChannel(ctx, link)`: remote subscribe with the callback
URL, then on success register subscriptionID to link in the index and run the
periodic refresh; a remote-subscribe failure returns before the index is
touched. -/
def subscribeToChannel (env : SubEnv) (subs : List (String × ChannelLink))
    (link : ChannelLink) : Except String Unit × List (String × ChannelLink) :=
  match env.subscribeRemote link.msteamsTeam link.msteamsChannel (env.getURL ++ "/") with
  | .error e => (.error e, subs)
  | .ok subscriptionID =>
      match env.refreshPeriodically subscriptionID with
      | .error e => (.error e, mapInsert subs subscriptionID link)
      | .ok _ => (.ok (), mapInsert subs subscriptionID link)

/- ===== Concrete inputs used by witnesses and counterexamples ===== -/

/-- A concrete bridged pair: local channel C1 in team T1, remote channel rC in
team rT. -/
def link0 : ChannelLink := ⟨"T1", "C1", "rT", "rC"⟩

/-- A concrete author named U. -/
def user0 : User := ⟨"U"⟩

/-- A concrete top-level post of "hello" in channel C1. -/
def post0 : Post := ⟨"p1", "", "C1", "u1", "hello", []⟩

/-- The post of the scenario, tagged with the anti-echo marker of bot `bot1`. -/
def postEcho : Post := ⟨"p1", "", "C1", "u1", "hello", [("matterbridge_bot1", .boolVal true)]⟩

/-- A links map with C1/T1 linked to rT/rC. -/
def scenarioChannelsLinked : List (String × ChannelLink) := [("T1:C1", link0)]

/-- A remote send that always fails. -/
def failSend : String → String → String → String → Except String String :=
  fun _ _ _ _ => .error "boom"

/-- A remote send that always succeeds with remote message id m1. -/
def okSend : String → String → String → String → Except String String :=
  fun _ _ _ _ => .ok "m1"

/-- The current channel of the command scenarios: open channel C1 in team T1. -/
def chan0 : GoChannel := ⟨"C1", "T1", .openChannel⟩

/-- A command environment in which every external call succeeds. -/
def envAllOk : LinkCmdEnv :=
  { teamEnabled := true
    getChannel := some chan0
    permManagePublic := true
    permManagePrivate := false
    msGetChannel := .ok ()
    subscribe := .ok "s1"
    unsubscribe := .ok ()
    save := fun _ => .ok () }

/-- A command environment in which everything succeeds except the persistence
write of the link snapshot. -/
def envSaveFail : LinkCmdEnv :=
  { teamEnabled := true
    getChannel := some chan0
    permManagePublic := true
    permManagePrivate := false
    msGetChannel := .ok ()
    subscribe := .ok "s1"
    unsubscribe := .ok ()
    save := fun _ => .error () }

/-- A startup environment whose stored snapshot blob fails to decode. -/
def envC8 : StartEnv :=
  { connectApp := .ok ()
    connectBot := .ok ()
    kvGetLinks := .ok "not-json"
    decodeLinks := fun _ => .error ()
    clearSubs := .ok () }

/-- A subscription environment whose remote subscribe call fails. -/
def subEnvFail : SubEnv :=
  { getURL := "https://mm.example/plugins/com.mattermost.matterbridge-plugin"
    subscribeRemote := fun _ _ _ => .error "subscribe failed"
    refreshPeriodically := fun _ => .ok () }

/-- A subscription environment in which every remote call succeeds. -/
def subEnvOk : SubEnv :=
  { getURL := "https://mm.example/plugins/com.mattermost.matterbridge-plugin"
    subscribeRemote := fun _ _ _ => .ok "s1"
    refreshPeriodically := fun _ => .ok () }

/- ===== Helper lemmas ===== -/

/-- Looking up the key just inserted returns the inserted value. -/
theorem lookupFirst_mapInsert_self {α : Type} (m : List (String × α)) (k : String) (v : α) :
    lookupFirst (mapInsert m k v) k = some v := by
  simp [mapInsert, lookupFirst]

/-- After deleting a key, looking it up fails. -/
theorem lookupFirst_mapDelete {α : Type} (m : List (String × α)) (k : String) :
    lookupFirst (mapDelete m k) k = none := by
  induction m with
  | nil => rfl
  | cons e rest ih =>
    by_cases h : e.1 = k
    · simpa [mapDelete, List.filter_cons, h] using ih
    · have h2 : ¬ (k = e.1) := fun hh => h hh.symm
      simpa [mapDelete, List.filter_cons, h, lookupFirst, h2] using ih

/-- The two KV key families used by the translator never collide: a
local-to-remote key differs from every remote-to-local key. -/
theorem mattermost_teams_key_ne (a c : String) :
    ("mattermost_teams_" ++ a) ≠ ("teams_mattermost_" ++ c) := by
  intro h
  have h2 : ("mattermost_teams_" ++ a).data = ("teams_mattermost_" ++ c).data := by rw [h]
  simp [String.data_append] at h2

/-- Explicit shape of one `RecordMapping` write when both ids are non-empty. -/
theorem RecordMapping_eq (kv : List (String × String)) (a c : String)
    (ha : a ≠ "") (hc : c ≠ "") :
    RecordMapping kv a c
      = ("teams_mattermost_" ++ c, a) :: ("mattermost_teams_" ++ a, c) :: kv := by
  unfold RecordMapping kvSet mapInsert
  rw [if_pos ⟨ha, hc⟩]

/-- Evaluation of `executeLinkCommand` on the fully successful path. -/
theorem executeLinkCommand_eq_ok (env : LinkCmdEnv) (cl : List (String × ChannelLink))
    (p1 p2 s : String) (channel : GoChannel)
    (hch : env.getChannel = some channel)
    (hen : env.teamEnabled = true)
    (hperm : canLinkChannel env channel = true)
    (hnot : lookupFirst cl (channel.teamId ++ ":" ++ channel.id) = none)
    (hms : env.msGetChannel = .ok ())
    (hsub : env.subscribe = .ok s)
    (hsave : env.save (mapInsert cl (channel.teamId ++ ":" ++ channel.id)
        ⟨channel.teamId, channel.id, p1, p2⟩) = .ok ()) :
    executeLinkCommand env cl [p1, p2] =
      ⟨.success,
        mapInsert cl (channel.teamId ++ ":" ++ channel.id) ⟨channel.teamId, channel.id, p1, p2⟩,
        [mapInsert cl (channel.teamId ++ ":" ++ channel.id) ⟨channel.teamId, channel.id, p1, p2⟩]⟩ := by
  simp [executeLinkCommand, hch, hen, hperm, hnot, hms, hsub, hsave]

/-- Evaluation of `executeLinkCommand` when only the snapshot write fails: the
error reply is returned while the inserted link stays in the map. -/
theorem executeLinkCommand_eq_savefail (env : LinkCmdEnv) (cl : List (String × ChannelLink))
    (p1 p2 s : String) (channel : GoChannel)
    (hch : env.getChannel = some channel)
    (hen : env.teamEnabled = true)
    (hperm : canLinkChannel env channel = true)
    (hnot : lookupFirst cl (channel.teamId ++ ":" ++ channel.id) = none)
    (hms : env.msGetChannel = .ok ())
    (hsub : env.subscribe = .ok s)
    (hsave : env.save (mapInsert cl (channel.teamId ++ ":" ++ channel.id)
        ⟨channel.teamId, channel.id, p1, p2⟩) = .error ()) :
    executeLinkCommand env cl [p1, p2] =
      ⟨.cmdError "Unable to store the new link, please try again.",
        mapInsert cl (channel.teamId ++ ":" ++ channel.id) ⟨channel.teamId, channel.id, p1, p2⟩,
        [mapInsert cl (channel.teamId ++ ":" ++ channel.id) ⟨channel.teamId, channel.id, p1, p2⟩]⟩ := by
  simp [executeLinkCommand, hch, hen, hperm, hnot, hms, hsub, hsave]

/-- Evaluation of `executeLinkCommand` when the channel is already linked. -/
theorem executeLinkCommand_eq_already (env : LinkCmdEnv) (cl : List (String × ChannelLink))
    (p1 p2 : String) (channel : GoChannel) (l : ChannelLink)
    (hch : env.getChannel = some channel)
    (hen : env.teamEnabled = true)
    (hperm : canLinkChannel env channel = true)
    (hfound : lookupFirst cl (channel.teamId ++ ":" ++ channel.id) = some l) :
    executeLinkCommand env cl [p1, p2] =
      ⟨.cmdError "A link for this channel already exists, please remove unlink the channel before you link a new one",
        cl, []⟩ := by
  simp [executeLinkCommand, hch, hen, hperm, hfound]

/-- Evaluation of `executeUnlinkCommand` on the fully successful path. -/
theorem executeUnlinkCommand_eq_ok (env : LinkCmdEnv) (cl : List (String × ChannelLink))
    (channel : GoChannel) (l : ChannelLink)
    (hch : env.getChannel = some channel)
    (hperm : canLinkChannel env channel = true)
    (hfound : lookupFirst cl (channel.teamId ++ ":" ++ channel.id) = some l)
    (huns : env.unsubscribe = .ok ())
    (hsave : env.save (mapDelete cl (channel.teamId ++ ":" ++ channel.id)) = .ok ()) :
    executeUnlinkCommand env cl =
      ⟨.success, mapDelete cl (channel.teamId ++ ":" ++ channel.id),
        [mapDelete cl (channel.teamId ++ ":" ++ channel.id)]⟩ := by
  simp [executeUnlinkCommand, hch, hperm, hfound, huns, hsave]

/-- Evaluation of `executeUnlinkCommand` when only the snapshot write fails:
the error reply is returned while the deletion stays applied to the map. -/
theorem executeUnlinkCommand_eq_savefail (env : LinkCmdEnv) (cl : List (String × ChannelLink))
    (channel : GoChannel) (l : ChannelLink)
    (hch : env.getChannel = some channel)
    (hperm : canLinkChannel env channel = true)
    (hfound : lookupFirst cl (channel.teamId ++ ":" ++ channel.id) = some l)
    (huns : env.unsubscribe = .ok ())
    (hsave : env.save (mapDelete cl (channel.teamId ++ ":" ++ channel.id)) = .error ()) :
    executeUnlinkCommand env cl =
      ⟨.cmdError "Unable to store the new link, please try again.",
        mapDelete cl (channel.teamId ++ ":" ++ channel.id),
        [mapDelete cl (channel.teamId ++ ":" ++ channel.id)]⟩ := by
  simp [executeUnlinkCommand, hch, hperm, hfound, huns, hsave]

/-- Evaluation of `executeUnlinkCommand` when no link exists for the channel. -/
theorem executeUnlinkCommand_eq_notfound (env : LinkCmdEnv) (cl : List (String × ChannelLink))
    (channel : GoChannel)
    (hch : env.getChannel = some channel)
    (hperm : canLinkChannel env channel = true)
    (hnone : lookupFirst cl (channel.teamId ++ ":" ++ channel.id) = none) :
    executeUnlinkCommand env cl = ⟨.cmdError "Link doesn\x27t exist.", cl, []⟩ := by
  simp [executeUnlinkCommand, hch, hperm, hnone]

/- ===== Claim theorems ===== -/

/-- C1: counterexample. The claim says `RecordMapping(a,b)` followed by
`RecordMapping(a,c)` with `c != b` leaves `ResolveRemoteParent(a) = b`
(first writer wins). The source writes with an unconditional `KVSet`, so with
a = "p1", b = "m1", c = "m2" the resolved value is "m2", not "m1". -/
theorem C1_counterexample :
    ¬ (ResolveRemoteParent (RecordMapping (RecordMapping [] "p1" "m1") "p1" "m2") "p1"
        = some "m1") := by decide

/-- C1 (amended): the second `RecordMapping` for the same key overwrites the
first: after `RecordMapping(a,b)` then `RecordMapping(a,c)` with non-empty ids,
`ResolveRemoteParent(a)` returns `c` (last writer wins). -/
theorem C1_amended_last_writer_wins (kv : List (String × String)) (a b c : String)
    (ha : a ≠ "") (hc : c ≠ "") :
    ResolveRemoteParent (RecordMapping (RecordMapping kv a b) a c) a = some c := by
  rw [RecordMapping_eq (RecordMapping kv a b) a c ha hc]
  unfold ResolveRemoteParent kvGet
  simp [lookupFirst, mattermost_teams_key_ne a c]

/-- Witness for C1 (amended) at a = "p1", b = "m1", c = "m2". -/
theorem C1_amended_last_writer_wins_witness :
    ResolveRemoteParent (RecordMapping (RecordMapping [] "p1" "m1") "p1" "m2") "p1"
      = some "m2" :=
  C1_amended_last_writer_wins [] "p1" "m1" "m2" (by decide) (by decide)

/-- C2: counterexample. The claim says that when the persistence write of the
link snapshot fails, the in-memory `channelsLinked` mutation is rolled back.
Starting from an empty map, a link command whose save fails returns the error
reply yet leaves the inserted link in the map. -/
theorem C2_counterexample :
    (executeLinkCommand envSaveFail [] ["rT", "rC"]).resp
        = .cmdError "Unable to store the new link, please try again." ∧
    (executeLinkCommand envSaveFail [] ["rT", "rC"]).channelsLinked ≠ [] := by decide

/-- C2 (amended): when the persistence write fails, the error is surfaced to
the caller but the in-memory mutation is NOT rolled back: after a failing link
command the inserted link is still found in the map, and after a failing
unlink command the deleted link is still gone from the map. -/
theorem C2_amended_no_rollback (env : LinkCmdEnv) (cl cl2 : List (String × ChannelLink))
    (p1 p2 s : String) (channel : GoChannel) (l : ChannelLink)
    (hch : env.getChannel = some channel) (hen : env.teamEnabled = true)
    (hperm : canLinkChannel env channel = true)
    (hsave : ∀ m, env.save m = .error ())
    (hnot : lookupFirst cl (channel.teamId ++ ":" ++ channel.id) = none)
    (hms : env.msGetChannel = .ok ()) (hsub : env.subscribe = .ok s)
    (hfound : lookupFirst cl2 (channel.teamId ++ ":" ++ channel.id) = some l)
    (huns : env.unsubscribe = .ok ()) :
    ((executeLinkCommand env cl [p1, p2]).resp
        = .cmdError "Unable to store the new link, please try again." ∧
      lookupFirst (executeLinkCommand env cl [p1, p2]).channelsLinked
          (channel.teamId ++ ":" ++ channel.id)
        = some ⟨channel.teamId, channel.id, p1, p2⟩) ∧
    ((executeUnlinkCommand env cl2).resp
        = .cmdError "Unable to store the new link, please try again." ∧
      lookupFirst (executeUnlinkCommand env cl2).channelsLinked
          (channel.teamId ++ ":" ++ channel.id) = none) := by
  have hA := executeLinkCommand_eq_savefail env cl p1 p2 s channel hch hen hperm hnot hms hsub
    (hsave _)
  have hB := executeUnlinkCommand_eq_savefail env cl2 channel l hch hperm hfound huns (hsave _)
  rw [hA, hB]
  exact ⟨⟨rfl, lookupFirst_mapInsert_self cl _ _⟩, ⟨rfl, lookupFirst_mapDelete cl2 _⟩⟩

/-- Witness for C2 (amended): the failing-save environment on an empty map for
the link half and on the linked map for the unlink half. -/
theorem C2_amended_no_rollback_witness :
    ((executeLinkCommand envSaveFail [] ["rT", "rC"]).resp
        = .cmdError "Unable to store the new link, please try again." ∧
      lookupFirst (executeLinkCommand envSaveFail [] ["rT", "rC"]).channelsLinked
          (chan0.teamId ++ ":" ++ chan0.id)
        = some ⟨chan0.teamId, chan0.id, "rT", "rC"⟩) ∧
    ((executeUnlinkCommand envSaveFail scenarioChannelsLinked).resp
        = .cmdError "Unable to store the new link, please try again." ∧
      lookupFirst (executeUnlinkCommand envSaveFail scenarioChannelsLinked).channelsLinked
          (chan0.teamId ++ ":" ++ chan0.id) = none) :=
  C2_amended_no_rollback envSaveFail [] scenarioChannelsLinked "rT" "rC" "s1" chan0 link0
    rfl rfl (by decide) (fun _ => rfl) rfl rfl rfl (by decide) rfl

/-- C3: when the remote `SendMessage` call fails, `Plugin.Send` returns that
error and the KV store is unchanged: no mapping entry is written in either
direction. -/
theorem C3_failed_send_no_mapping
    (sendMessage : String → String → String → String → Except String String)
    (kv : List (String × String)) (link : ChannelLink) (user : User) (post : Post) (e : String)
    (h : sendMessage link.msteamsTeam link.msteamsChannel (sendParentID kv post)
        (sendText user post) = .error e) :
    (Send sendMessage kv link user post).result = .error e ∧
    (Send sendMessage kv link user post).kv = kv := by
  unfold Send
  rw [h]
  exact ⟨rfl, rfl⟩

/-- Witness for C3 at the always-failing remote send. -/
theorem C3_failed_send_no_mapping_witness :
    (Send failSend [] link0 user0 post0).result = .error "boom" ∧
    (Send failSend [] link0 user0 post0).kv = [] :=
  C3_failed_send_no_mapping failSend [] link0 user0 post0 "boom" rfl

/-- C4: a post that carries the bridge anti-echo marker (a bool-valued
`matterbridge_` + botUserID property) is dropped by the local-post handler:
no send is dispatched, for every links map and environment. -/
theorem C4_echo_marker_drops_post (getChannelTeamId : String → String)
    (getUser : String → User) (userID : String)
    (channelsLinked : List (String × ChannelLink)) (post : Post)
    (h : hasEchoMarker userID post = true) :
    MessageHasBeenPosted getChannelTeamId getUser userID channelsLinked post = .dropped := by
  unfold MessageHasBeenPosted
  simp [h]

/-- Witness for C4: the tagged post in a channel that IS linked. -/
theorem C4_echo_marker_drops_post_witness :
    hasEchoMarker "bot1" postEcho = true ∧
    MessageHasBeenPosted (fun _ => "T1") (fun _ => user0) "bot1" scenarioChannelsLinked postEcho
      = .dropped :=
  ⟨by decide,
    C4_echo_marker_drops_post (fun _ => "T1") (fun _ => user0) "bot1" scenarioChannelsLinked
      postEcho (by decide)⟩

/-- C5: counterexample. The claim expects the one `SendMessage` call of the
scenario to be `(rT, rC, "", "U: hello")`, but the source formats the text as
`Username + "@mattermost: " + Message`, so the call carries
"U@mattermost: hello". -/
theorem C5_counterexample :
    (handleLocalPost (fun _ => "T1") (fun _ => user0) okSend "bot1"
        scenarioChannelsLinked [] post0).1
      ≠ [("rT", "rC", "", "U: hello")] := by decide

/-- C5 (amended): in the scenario, exactly one `SendMessage(rT, rC, "",
"U@mattermost: hello")` call is made and the mapping localPostID to
remotePostID is recorded. -/
theorem C5_amended_scenario :
    (handleLocalPost (fun _ => "T1") (fun _ => user0) okSend "bot1"
        scenarioChannelsLinked [] post0).1
      = [("rT", "rC", "", "U@mattermost: hello")] ∧
    ResolveRemoteParent
        (handleLocalPost (fun _ => "T1") (fun _ => user0) okSend "bot1"
          scenarioChannelsLinked [] post0).2 "p1"
      = some "m1" := by decide

/-- C6: with every external call succeeding, a link command followed by an
unlink command for the same channel restores the lookup to "not found", and a
second unlink command fails with the not-linked error while leaving the map
unchanged. -/
theorem C6_link_unlink_roundtrip (env : LinkCmdEnv) (cl : List (String × ChannelLink))
    (p1 p2 s : String) (channel : GoChannel)
    (hch : env.getChannel = some channel) (hen : env.teamEnabled = true)
    (hperm : canLinkChannel env channel = true)
    (hnot : lookupFirst cl (channel.teamId ++ ":" ++ channel.id) = none)
    (hms : env.msGetChannel = .ok ()) (hsub : env.subscribe = .ok s)
    (hsave : ∀ m, env.save m = .ok ()) (huns : env.unsubscribe = .ok ()) :
    lookupFirst
        (executeUnlinkCommand env
          (executeLinkCommand env cl [p1, p2]).channelsLinked).channelsLinked
        (channel.teamId ++ ":" ++ channel.id) = none ∧
    (executeUnlinkCommand env
        (executeUnlinkCommand env
          (executeLinkCommand env cl [p1, p2]).channelsLinked).channelsLinked).resp
      = .cmdError "Link doesn\x27t exist." ∧
    (executeUnlinkCommand env
        (executeUnlinkCommand env
          (executeLinkCommand env cl [p1, p2]).channelsLinked).channelsLinked).channelsLinked
      = (executeUnlinkCommand env
          (executeLinkCommand env cl [p1, p2]).channelsLinked).channelsLinked := by
  have hA := executeLinkCommand_eq_ok env cl p1 p2 s channel hch hen hperm hnot hms hsub
    (hsave _)
  rw [hA]
  have hfound := lookupFirst_mapInsert_self cl (channel.teamId ++ ":" ++ channel.id)
    (⟨channel.teamId, channel.id, p1, p2⟩ : ChannelLink)
  have hB := executeUnlinkCommand_eq_ok env
    (mapInsert cl (channel.teamId ++ ":" ++ channel.id) ⟨channel.teamId, channel.id, p1, p2⟩)
    channel ⟨channel.teamId, channel.id, p1, p2⟩ hch hperm hfound huns (hsave _)
  dsimp only
  rw [hB]
  dsimp only
  have hnone := lookupFirst_mapDelete
    (mapInsert cl (channel.teamId ++ ":" ++ channel.id) ⟨channel.teamId, channel.id, p1, p2⟩)
    (channel.teamId ++ ":" ++ channel.id)
  have hC := executeUnlinkCommand_eq_notfound env
    (mapDelete
      (mapInsert cl (channel.teamId ++ ":" ++ channel.id) ⟨channel.teamId, channel.id, p1, p2⟩)
      (channel.teamId ++ ":" ++ channel.id))
    channel hch hperm hnone
  rw [hC]
  exact ⟨hnone, rfl, rfl⟩

/-- Witness for C6: the all-success environment starting from the empty map. -/
theorem C6_link_unlink_roundtrip_witness :
    lookupFirst
        (executeUnlinkCommand envAllOk
          (executeLinkCommand envAllOk [] ["rT", "rC"]).channelsLinked).channelsLinked
        (chan0.teamId ++ ":" ++ chan0.id) = none ∧
    (executeUnlinkCommand envAllOk
        (executeUnlinkCommand envAllOk
          (executeLinkCommand envAllOk [] ["rT", "rC"]).channelsLinked).channelsLinked).resp
      = .cmdError "Link doesn\x27t exist." ∧
    (executeUnlinkCommand envAllOk
        (executeUnlinkCommand envAllOk
          (executeLinkCommand envAllOk [] ["rT", "rC"]).channelsLinked).channelsLinked).channelsLinked
      = (executeUnlinkCommand envAllOk
          (executeLinkCommand envAllOk [] ["rT", "rC"]).channelsLinked).channelsLinked :=
  C6_link_unlink_roundtrip envAllOk [] "rT" "rC" "s1" chan0 rfl rfl (by decide) rfl rfl rfl
    (fun _ => rfl) rfl

/-- C7: a link command for an already-linked channel fails with the
already-linked error and leaves the registry and persistence untouched;
otherwise (with the remote checks succeeding) the link is inserted and the
full snapshot containing it is persisted. -/
theorem C7_addlink_already_or_insert (env : LinkCmdEnv) (cl : List (String × ChannelLink))
    (p1 p2 s : String) (channel : GoChannel)
    (hch : env.getChannel = some channel) (hen : env.teamEnabled = true)
    (hperm : canLinkChannel env channel = true) :
    (∀ l, lookupFirst cl (channel.teamId ++ ":" ++ channel.id) = some l →
      (executeLinkCommand env cl [p1, p2]).resp
          = .cmdError "A link for this channel already exists, please remove unlink the channel before you link a new one" ∧
      (executeLinkCommand env cl [p1, p2]).channelsLinked = cl ∧
      (executeLinkCommand env cl [p1, p2]).saves = []) ∧
    (lookupFirst cl (channel.teamId ++ ":" ++ channel.id) = none →
      env.msGetChannel = .ok () → env.subscribe = .ok s →
      env.save (mapInsert cl (channel.teamId ++ ":" ++ channel.id)
          ⟨channel.teamId, channel.id, p1, p2⟩) = .ok () →
      (executeLinkCommand env cl [p1, p2]).resp = .success ∧
      lookupFirst (executeLinkCommand env cl [p1, p2]).channelsLinked
          (channel.teamId ++ ":" ++ channel.id) = some ⟨channel.teamId, channel.id, p1, p2⟩ ∧
      (executeLinkCommand env cl [p1, p2]).saves
        = [mapInsert cl (channel.teamId ++ ":" ++ channel.id)
            ⟨channel.teamId, channel.id, p1, p2⟩]) := by
  constructor
  · intro l hfound
    have hE := executeLinkCommand_eq_already env cl p1 p2 channel l hch hen hperm hfound
    rw [hE]
    exact ⟨rfl, rfl, rfl⟩
  · intro hnot hms hsub hsave
    have hE := executeLinkCommand_eq_ok env cl p1 p2 s channel hch hen hperm hnot hms hsub hsave
    rw [hE]
    exact ⟨rfl, lookupFirst_mapInsert_self cl _ _, rfl⟩

/-- Witness for C7: both halves at the all-success environment — the first on
a map that already links the channel, the second on the empty map. -/
theorem C7_addlink_already_or_insert_witness :
    ((executeLinkCommand envAllOk scenarioChannelsLinked ["rT", "rC"]).resp
        = .cmdError "A link for this channel already exists, please remove unlink the channel before you link a new one" ∧
      (executeLinkCommand envAllOk scenarioChannelsLinked ["rT", "rC"]).channelsLinked
        = scenarioChannelsLinked ∧
      (executeLinkCommand envAllOk scenarioChannelsLinked ["rT", "rC"]).saves = []) ∧
    ((executeLinkCommand envAllOk [] ["rT", "rC"]).resp = .success ∧
      lookupFirst (executeLinkCommand envAllOk [] ["rT", "rC"]).channelsLinked
          (chan0.teamId ++ ":" ++ chan0.id) = some ⟨chan0.teamId, chan0.id, "rT", "rC"⟩ ∧
      (executeLinkCommand envAllOk [] ["rT", "rC"]).saves
        = [mapInsert [] (chan0.teamId ++ ":" ++ chan0.id)
            ⟨chan0.teamId, chan0.id, "rT", "rC"⟩]) :=
  ⟨(C7_addlink_already_or_insert envAllOk scenarioChannelsLinked "rT" "rC" "s1" chan0
      rfl rfl (by decide)).1 link0 (by decide),
   (C7_addlink_already_or_insert envAllOk [] "rT" "rC" "s1" chan0
      rfl rfl (by decide)).2 rfl rfl rfl rfl⟩

/-- C8: when the stored `channelsLinked` blob cannot be decoded, `Plugin.start`
aborts: no links map is installed and no subscription is created. -/
theorem C8_corrupt_snapshot_aborts_start (env : StartEnv) (blob : String)
    (h1 : env.connectApp = .ok ()) (h2 : env.connectBot = .ok ())
    (h3 : env.kvGetLinks = .ok blob) (h4 : env.decodeLinks blob = .error ()) :
    (start env).channelsLinked = none ∧ (start env).subscriptionsStarted = [] := by
  simp [start, h1, h2, h3, h4]

/-- Witness for C8 at the environment whose blob fails to decode. -/
theorem C8_corrupt_snapshot_aborts_start_witness :
    (start envC8).channelsLinked = none ∧ (start envC8).subscriptionsStarted = [] :=
  C8_corrupt_snapshot_aborts_start envC8 "not-json" rfl rfl rfl rfl

/-- C9: `Plugin.subscribeToChannel` adds the subscriptionID-to-link entry to
the index exactly when the remote subscribe call succeeds; on a remote
failure the error is returned and the index is unchanged. -/
theorem C9_subscribe_index_update (env : SubEnv) (subs : List (String × ChannelLink))
    (link : ChannelLink) :
    (∀ e, env.subscribeRemote link.msteamsTeam link.msteamsChannel (env.getURL ++ "/")
        = .error e →
      subscribeToChannel env subs link = (.error e, subs)) ∧
    (∀ sid, env.subscribeRemote link.msteamsTeam link.msteamsChannel (env.getURL ++ "/")
        = .ok sid →
      (subscribeToChannel env subs link).2 = mapInsert subs sid link ∧
      lookupFirst (subscribeToChannel env subs link).2 sid = some link) := by
  constructor
  · intro e he
    unfold subscribeToChannel
    rw [he]
  · intro sid hs
    unfold subscribeToChannel
    rw [hs]
    dsimp only
    cases href : env.refreshPeriodically sid <;>
      exact ⟨rfl, lookupFirst_mapInsert_self subs sid link⟩

/-- Witness for C9: the failing remote subscribe leaves the index empty, the
succeeding one registers the link under the returned subscription id. -/
theorem C9_subscribe_index_update_witness :
    subscribeToChannel subEnvFail [] link0 = (.error "subscribe failed", []) ∧
    lookupFirst (subscribeToChannel subEnvOk [] link0).2 "s1" = some link0 :=
  ⟨(C9_subscribe_index_update subEnvFail [] link0).1 "subscribe failed" rfl,
   ((C9_subscribe_index_update subEnvOk [] link0).2 "s1" rfl).2⟩

/-- C10: on a successful remote send, `Plugin.Send` returns the remote message
id; the two directional mapping entries are written exactly when both the
local post id and the remote id are non-empty, and otherwise the KV store is
untouched while the call still succeeds. -/
theorem C10_mapping_guard
    (sendMessage : String → String → String → String → Except String String)
    (kv : List (String × String)) (link : ChannelLink) (user : User) (post : Post) (m : String)
    (h : sendMessage link.msteamsTeam link.msteamsChannel (sendParentID kv post)
        (sendText user post) = .ok m) :
    (Send sendMessage kv link user post).result = .ok m ∧
    ((post.id = "" ∨ m = "") → (Send sendMessage kv link user post).kv = kv) ∧
    (post.id ≠ "" → m ≠ "" →
      ResolveRemoteParent (Send sendMessage kv link user post).kv post.id = some m ∧
      ResolveLocalFromRemote (Send sendMessage kv link user post).kv m = some post.id) := by
  unfold Send
  rw [h]
  refine ⟨rfl, ?_, ?_⟩
  · intro hemp
    show RecordMapping kv post.id m = kv
    unfold RecordMapping
    rcases hemp with h1 | h1 <;> simp [h1]
  · intro hid hm
    show ResolveRemoteParent (RecordMapping kv post.id m) post.id = some m ∧
      ResolveLocalFromRemote (RecordMapping kv post.id m) m = some post.id
    rw [RecordMapping_eq kv post.id m hid hm]
    unfold ResolveRemoteParent ResolveLocalFromRemote kvGet
    constructor
    · simp [lookupFirst, mattermost_teams_key_ne post.id m]
    · simp [lookupFirst]

/-- Witness for C10 at the always-succeeding remote send and a post with a
non-empty id: both directional lookups find the recorded pair. -/
theorem C10_mapping_guard_witness :
    (Send okSend [] link0 user0 post0).result = .ok "m1" ∧
    (ResolveRemoteParent (Send okSend [] link0 user0 post0).kv post0.id = some "m1" ∧
      ResolveLocalFromRemote (Send okSend [] link0 user0 post0).kv "m1" = some post0.id) :=
  ⟨(C10_mapping_guard okSend [] link0 user0 post0 "m1" rfl).1,
   (C10_mapping_guard okSend [] link0 user0 post0 "m1" rfl).2.2 (by decide) (by decide)⟩

end MSTeamsSync
